import Mathlib

/-!
Verification of the auto-scaling-microservice HTTP handlers.

Shallow embedding of the two services' request handlers:

* the product-catalog service
  (`src/auto-scaling-microservice-backend/src/index.ts`): create, list
  (paginated), get-by-id, update, delete over an in-memory array of products;
* the stock service (`stock-service` `index.ts`): list-all (paginated),
  get-by-productId, update (upsert) over an in-memory object mapping
  productId to quantity.

JavaScript runtime values appearing in request bodies are modelled by `JsVal`
(numbers as exact rationals; `NaN` as its own constructor since `typeof NaN`
is `"number"` while `Number.isInteger NaN` is false). Query parameters are
modelled as `Option String` (`none` = absent), with JS string truthiness
(only `""` is falsy) and `parseInt(s, 10)` modelled by `jsParseInt`
(`none` = `NaN`). Timestamps (`Date`) are epoch milliseconds as `Nat`.
-/

/-- A JavaScript runtime value, as far as the handlers inspect one. -/
inductive JsVal where
  | undef
  | null
  | nan
  | num (x : ℚ)
  | str (s : String)
  | bool (b : Bool)
deriving DecidableEq, Repr

namespace JsVal

/-- JS truthiness: `undefined`, `null`, `NaN`, `0` and `""` are falsy. -/
def truthy : JsVal → Bool
  | .undef => false
  | .null => false
  | .nan => false
  | .num x => decide (x ≠ 0)
  | .str s => !s.isEmpty
  | .bool b => b

/-- Models `typeof v === "number"` (`NaN` is a number in JS). -/
def isNumber : JsVal → Bool
  | .num _ => true
  | .nan => true
  | _ => false

/-- Models `v < 0` for a JS value already known to be a number (`NaN < 0` is false). -/
def ltZero : JsVal → Bool
  | .num x => decide (x < 0)
  | _ => false

/-- Models `Number.isInteger v` (`false` on `NaN` and on every non-number). -/
def isIntegerJs : JsVal → Bool
  | .num x => decide (x.den = 1)
  | _ => false

end JsVal

/-- Models `parseInt(s, 10)`: skip leading whitespace, optional sign, then the longest
prefix of decimal digits; `none` models `NaN` (no digits found). -/
def jsParseInt (s : String) : Option Int :=
  let cs := s.toList.dropWhile Char.isWhitespace
  let signAndRest : Int × List Char :=
    match cs with
    | '-' :: rest => (-1, rest)
    | '+' :: rest => (1, rest)
    | _ => (1, cs)
  let ds := signAndRest.2.takeWhile Char.isDigit
  if ds.isEmpty then none
  else some (signAndRest.1 * (ds.foldl (fun a c => a * 10 + (c.toNat - 48)) 0 : Nat))

/-- Models `xs.slice(start, stop)`: negative indices count from the end, indices are
clamped to `[0, length]`, and the extracted range is `[start, stop)`. -/
def jsSlice {α : Type} (xs : List α) (start stop : Int) : List α :=
  let len : Int := xs.length
  let s := if start < 0 then max (len + start) 0 else min start len
  let e := if stop < 0 then max (len + stop) 0 else min stop len
  (xs.take e.toNat).drop s.toNat

/-- The pagination envelope returned by both list handlers. -/
structure Pagination where
  currentPage : Int
  totalPages : Int
  totalItems : Nat
  limit : Int
  hasNextPage : Bool
  hasPreviousPage : Bool
deriving DecidableEq, Repr

/-- Outcome of a list handler: 400 with a message, or 200 with data plus the
pagination envelope. -/
inductive ListResult (α : Type) where
  | badRequest (message : String)
  | ok (data : List α) (pagination : Pagination)
deriving DecidableEq, Repr

namespace ListResult

def status {α : Type} : ListResult α → Nat
  | .badRequest _ => 400
  | .ok _ _ => 200

def data {α : Type} : ListResult α → List α
  | .badRequest _ => []
  | .ok d _ => d

end ListResult

def invalidPaginationMsg : String :=
  "Invalid pagination parameters. Page and limit must be positive numbers."

/-- The slicing half shared verbatim by both list handlers (source lines after
the `isNaN`/`< 1` guard): compute `startIndex`/`endIndex`, slice, and build the
envelope with `totalPages = Math.ceil(totalItems / limit)`. The `page < 1`
and `limit < 1` halves of the source's guard are checked here; the `isNaN`
halves are checked at the call site where parsing happens. -/
def paginate {α : Type} (xs : List α) (page limit : Int) : ListResult α :=
  if page < 1 ∨ limit < 1 then
    .badRequest invalidPaginationMsg
  else
    let startIndex := (page - 1) * limit
    let endIndex := page * limit
    let results := jsSlice xs startIndex endIndex
    let totalItems := xs.length
    let totalPages : Int := ⌈(totalItems : ℚ) / (limit : ℚ)⌉
    .ok results
      { currentPage := page
        totalPages := totalPages
        totalItems := totalItems
        limit := limit
        hasNextPage := decide (endIndex < (totalItems : Int))
        hasPreviousPage := decide (startIndex > 0) }

/-- Models `req.query.page ? parseInt(req.query.page, 10) : dflt`: an absent or
empty (falsy) parameter takes the default; a non-empty one is parsed,
`none` modelling `NaN`. -/
def pageNum (q : Option String) (dflt : Int) : Option Int :=
  match q with
  | some s => if s.isEmpty then some dflt else jsParseInt s
  | none => some dflt

/-- A stored catalog entry. The handlers copy request-body values into the
store without conversion, so the mutable fields keep the `JsVal` type;
`id` is the server-generated string and the two timestamps are epoch ms. -/
structure Product where
  id : String
  name : JsVal
  description : JsVal
  detailedDescription : JsVal
  imageUrl : JsVal
  price : JsVal
  stockQuantity : JsVal
  category : JsVal
  createdAt : Nat
  updatedAt : Nat
deriving DecidableEq, Repr

/-- The fields destructured from `req.body` by the create and update
handlers; an absent field is `JsVal.undef`. -/
structure ProductBody where
  name : JsVal
  description : JsVal
  detailedDescription : JsVal
  price : JsVal
  stockQuantity : JsVal
  category : JsVal
  imageUrl : JsVal
deriving DecidableEq, Repr

/-- Outcome of a single-product handler, tagged by HTTP status. -/
inductive ProductResult where
  | created (p : Product)
  | ok (p : Product)
  | badRequest (message : String)
  | notFound (message : String)
  | noContent
deriving DecidableEq, Repr

def ProductResult.status : ProductResult → Nat
  | .created _ => 201
  | .ok _ => 200
  | .badRequest _ => 400
  | .notFound _ => 404
  | .noContent => 204

/-- A single-quote character as a string (the not-found messages wrap the
requested id in single quotes). -/
def squote : String := String.mk [Char.ofNat 39]

def createRequiredMsg : String :=
  "Please provide all required fields: name, description, price, stockQuantity, category, imageUrl"

def updateRequiredMsg : String :=
  "Please provide all required fields for update: name, description, price, stockQuantity, category, imageUrl"

def numberTypeMsg : String := "Fields price and stockQuantity must be numbers."

def notFoundGetMsg (id : String) : String :=
  "Product with id " ++ squote ++ id ++ squote ++ " not found."

def notFoundUpdateMsg (id : String) : String :=
  "Product with id " ++ squote ++ id ++ squote ++ " not found, cannot update."

def notFoundDeleteMsg (id : String) : String :=
  "Product with id " ++ squote ++ id ++ squote ++ " not found, cannot delete."

/-- The shared presence check of the create and update handlers:
`!name || !description || price === undefined || stockQuantity === undefined
|| !category || !imageUrl`. Note `price` and `stockQuantity` are compared to
`undefined` only, while the string fields are tested for truthiness. -/
def missingRequired (b : ProductBody) : Bool :=
  !b.name.truthy || !b.description.truthy || b.price == JsVal.undef ||
    b.stockQuantity == JsVal.undef || !b.category.truthy || !b.imageUrl.truthy

/-- POST /products. `now` is `Date.now()` and `newId` the freshly generated
uuid. Returns the response and the resulting store. -/
def createProductHandler (b : ProductBody) (products : List Product)
    (now : Nat) (newId : String) : ProductResult × List Product :=
  if missingRequired b then
    (.badRequest createRequiredMsg, products)
  else if !b.price.isNumber || !b.stockQuantity.isNumber then
    (.badRequest numberTypeMsg, products)
  else
    let newProduct : Product :=
      { id := newId
        name := b.name
        description := b.description
        detailedDescription := b.detailedDescription
        price := b.price
        stockQuantity := b.stockQuantity
        category := b.category
        imageUrl := b.imageUrl
        createdAt := now
        updatedAt := now }
    (.created newProduct, products ++ [newProduct])

/-- GET /products — parse `page`/`limit` (defaults 1 and 10), reject when either
is NaN or below 1 with the fixed message, else slice and respond 200. -/
def listProductsHandler (pageQ limitQ : Option String) (products : List Product) :
    ListResult Product :=
  match pageNum pageQ 1, pageNum limitQ 10 with
  | some page, some limit => paginate products page limit
  | _, _ => .badRequest invalidPaginationMsg

/-- GET /products/:id — linear search by identifier. -/
def getProductByIdHandler (id : String) (products : List Product) : ProductResult :=
  match products.find? (fun p => p.id == id) with
  | some p => .ok p
  | none => .notFound (notFoundGetMsg id)

/-- PUT /products/:id — validate exactly as create (update's variant of the
required-fields message), then `findIndex` by id; if found, overwrite the
element in place keeping `id` and `createdAt` and refreshing `updatedAt`,
else 404. The inner `none` case is unreachable: `findIdx?` always returns an
in-bounds index. -/
def updateProductHandler (productId : String) (b : ProductBody)
    (products : List Product) (now : Nat) : ProductResult × List Product :=
  if missingRequired b then
    (.badRequest updateRequiredMsg, products)
  else if !b.price.isNumber || !b.stockQuantity.isNumber then
    (.badRequest numberTypeMsg, products)
  else
    match products.findIdx? (fun p => p.id == productId) with
    | some i =>
      match products[i]? with
      | some old =>
        let updatedProduct : Product :=
          { old with
            name := b.name
            description := b.description
            detailedDescription := b.detailedDescription
            imageUrl := b.imageUrl
            price := b.price
            stockQuantity := b.stockQuantity
            category := b.category
            updatedAt := now }
        (.ok updatedProduct, products.set i updatedProduct)
      | none => (.notFound (notFoundUpdateMsg productId), products)
    | none => (.notFound (notFoundUpdateMsg productId), products)

/-- DELETE /products/:id — `findIndex` then `splice(i, 1)` (drop exactly the
element at `i`), responding 204 with no body; 404 when absent. -/
def deleteProductHandler (productId : String) (products : List Product) :
    ProductResult × List Product :=
  match products.findIdx? (fun p => p.id == productId) with
  | some i => (.noContent, products.eraseIdx i)
  | none => (.notFound (notFoundDeleteMsg productId), products)

/-! ## Stock service -/

/-- The stock store: a JS object keyed by productId. Modelled as an
association list in insertion order (string keys iterate in insertion
order); quantities are JS numbers, hence rationals. -/
def StockData : Type := List (String × ℚ)

/-- One `{productId, quantity}` projection of a store entry. -/
structure StockItem where
  productId : String
  quantity : ℚ
deriving DecidableEq, Repr

/-- Models `Object.keys(stockLevels).map(id => ({productId: id, quantity: ...}))`. -/
def stockItems (st : List (String × ℚ)) : List StockItem :=
  st.map (fun kv => { productId := kv.1, quantity := kv.2 })

/-- Outcome of the stock get/update handlers. -/
inductive StockResult where
  | ok (productId : String) (quantity : ℚ)
  | badRequest (message : String)
  | notFound (message : String)
deriving DecidableEq, Repr

def StockResult.status : StockResult → Nat
  | .ok _ _ => 200
  | .badRequest _ => 400
  | .notFound _ => 404

def missingQuantityMsg : String := "Missing \"quantity\" in request body."

def quantityNotNonNegIntMsg : String := "\"quantity\" must be a non-negative integer."

def stockNotFoundMsg (productId : String) : String :=
  "Stock information not found for product ID: " ++ productId

/-- Models `stockLevels[productId] = quantity` on a JS object: overwrite the first
matching key in place, or append a new key at the end. -/
def objSet (st : List (String × ℚ)) (k : String) (v : ℚ) : List (String × ℚ) :=
  match st with
  | [] => [(k, v)]
  | (k', v') :: rest => if k' == k then (k, v) :: rest else (k', v') :: objSet rest k v

/-- GET /stock — same pagination contract as the catalog list, over the
projected `{productId, quantity}` sequence. -/
def listAllStockHandler (pageQ limitQ : Option String) (st : List (String × ℚ)) :
    ListResult StockItem :=
  match pageNum pageQ 1, pageNum limitQ 10 with
  | some page, some limit => paginate (stockItems st) page limit
  | _, _ => .badRequest invalidPaginationMsg

/-- GET /stock/:productId — `stockLevels[productId] !== undefined` ? 200 : 404. -/
def getStockByProductIdHandler (productId : String) (st : List (String × ℚ)) :
    StockResult :=
  match st.lookup productId with
  | some q => .ok productId q
  | none => .notFound (stockNotFoundMsg productId)

/-- PUT /stock/:productId — reject an absent quantity, then a non-number,
negative, or non-integral one; otherwise upsert the key and echo the value
just written (the source re-reads `stockLevels[productId]`, which is the
written value). -/
def updateStockHandler (productId : String) (quantity : JsVal)
    (st : List (String × ℚ)) : StockResult × List (String × ℚ) :=
  if quantity == JsVal.undef then
    (.badRequest missingQuantityMsg, st)
  else if !quantity.isNumber || quantity.ltZero || !quantity.isIntegerJs then
    (.badRequest quantityNotNonNegIntMsg, st)
  else
    match quantity with
    | .num q => (.ok productId q, objSet st productId q)
    | _ => (.badRequest quantityNotNonNegIntMsg, st)

/-- The stock store seeded at startup (quantities 25 and 150). -/
def initialStockLevels : List (String × ℚ) :=
  [("71cb9bea-6e6e-42d5-a191-e28ad09b1e7b", 25),
   ("1fa7b950-5b2f-4742-a995-17c99022dc12", 150)]

/-! ## Helper lemmas -/

/-- Ceiling agreement: `Math.ceil(n / l)` for natural `n` and positive natural `l` agrees with
the natural-number ceiling division `(n + l - 1) / l`. -/
theorem ceil_natCast_div (n l : Nat) (hl : 0 < l) :
    ⌈(n : ℚ) / (l : ℚ)⌉ = (((n + l - 1) / l : Nat) : Int) := by
  have hlq : (0 : ℚ) < (l : ℚ) := by exact_mod_cast hl
  have hdm := Nat.div_add_mod (n + l - 1) l
  have hmod : (n + l - 1) % l < l := Nat.mod_lt _ hl
  set m := (n + l - 1) / l with hm
  obtain ⟨t, ht⟩ : ∃ t, t = l * m := ⟨_, rfl⟩
  obtain ⟨r, hr⟩ : ∃ r, r = (n + l - 1) % l := ⟨_, rfl⟩
  rw [← ht, ← hr] at hdm
  rw [← hr] at hmod
  have key : t + r + 1 = n + l := by omega
  have keyq : (t : ℚ) + r + 1 = n + l := by exact_mod_cast key
  have hml : (m : ℚ) * l = t := by rw [ht]; push_cast; ring
  have hmq : (r : ℚ) < l := by exact_mod_cast hmod
  have hr0 : (0 : ℚ) ≤ (r : ℚ) := by positivity
  have hnt : n ≤ t := by omega
  have htl : t < n + l := by omega
  have hntq : (n : ℚ) ≤ t := by exact_mod_cast hnt
  have htlq : (t : ℚ) < n + l := by exact_mod_cast htl
  rw [Int.ceil_eq_iff]
  constructor
  · push_cast
    rw [lt_div_iff₀ hlq]
    nlinarith [htlq, hml]
  · push_cast
    rw [div_le_iff₀ hlq]
    nlinarith [hntq, hml]

/-- Every collection of `n` elements fits in `(n + l - 1) / l` pages of `l`. -/
theorem le_ceilDiv_mul (n l : Nat) (hl : 0 < l) : n ≤ ((n + l - 1) / l) * l := by
  have hdm := Nat.div_add_mod (n + l - 1) l
  have hmod : (n + l - 1) % l < l := Nat.mod_lt _ hl
  obtain ⟨t, ht⟩ : ∃ t, t = l * ((n + l - 1) / l) := ⟨_, rfl⟩
  obtain ⟨r, hr⟩ : ∃ r, r = (n + l - 1) % l := ⟨_, rfl⟩
  rw [← ht, ← hr] at hdm
  rw [← hr] at hmod
  calc n ≤ t := by omega
  _ = l * ((n + l - 1) / l) := ht
  _ = ((n + l - 1) / l) * l := Nat.mul_comm _ _

/-- On non-negative indices, `slice` is take-then-drop. -/
theorem jsSlice_nonneg {α : Type} (xs : List α) (a b : Int) (ha : 0 ≤ a) (hb : 0 ≤ b) :
    jsSlice xs a b = (xs.take b.toNat).drop a.toNat := by
  have h1 : ¬ a < 0 := by omega
  have h2 : ¬ b < 0 := by omega
  simp only [jsSlice, if_neg h1, if_neg h2]
  have htake : xs.take (min b (xs.length : Int)).toNat = xs.take b.toNat := by
    rcases le_total b (xs.length : Int) with h | h
    · rw [min_eq_left h]
    · rw [min_eq_right h, Int.toNat_natCast, List.take_length,
        List.take_of_length_le (by omega)]
  rw [htake]
  rcases le_total a (xs.length : Int) with h | h
  · rw [min_eq_left h]
  · rw [min_eq_right h, Int.toNat_natCast]
    have h1 : (xs.take b.toNat).length ≤ xs.length := by
      simp [List.length_take]
    rw [List.drop_eq_nil_of_le h1, List.drop_eq_nil_of_le (by omega)]

/-- On an accepted pair, `paginate` returns 200 with the slice and the
envelope computed from the source's formulas. -/
theorem paginate_ok {α : Type} (xs : List α) (p L : Int) (hp : 1 ≤ p) (hL : 1 ≤ L) :
    paginate xs p L = ListResult.ok (jsSlice xs ((p - 1) * L) (p * L))
      { currentPage := p
        totalPages := ⌈(xs.length : ℚ) / (L : ℚ)⌉
        totalItems := xs.length
        limit := L
        hasNextPage := decide (p * L < (xs.length : Int))
        hasPreviousPage := decide ((p - 1) * L > 0) } := by
  unfold paginate
  rw [if_neg (by omega)]

/-- The data of an accepted page, in take/drop form. -/
theorem paginate_data {α : Type} (xs : List α) (p L : Int) (hp : 1 ≤ p) (hL : 1 ≤ L) :
    (paginate xs p L).data = (xs.take (p * L).toNat).drop ((p - 1) * L).toNat := by
  rw [paginate_ok xs p L hp hL, ListResult.data,
    jsSlice_nonneg xs _ _ (by nlinarith) (by nlinarith)]

/-- Concatenating the `m` first pages of width `l` recovers the first `m * l`
elements. -/
theorem flatten_pages {α : Type} (xs : List α) (l : Nat) (m : Nat) :
    ((List.range m).map (fun k => (xs.take ((k + 1) * l)).drop (k * l))).flatten
      = xs.take (m * l) := by
  induction m with
  | zero => simp
  | succ m ih =>
      rw [List.range_succ, List.map_append, List.flatten_append, ih]
      simp only [List.map_cons, List.map_nil, List.flatten_cons, List.flatten_nil,
        List.append_nil]
      have h : xs.take (m * l) = (xs.take ((m + 1) * l)).take (m * l) := by
        rw [List.take_take, min_eq_left (Nat.mul_le_mul_right l (Nat.le_succ m))]
      rw [h, List.take_append_drop]

/-! ## C1 -/

/-- C1: For every collection and every accepted pagination pair
(parsed page `p ≥ 1`, parsed limit `L ≥ 1`), the two list handlers apply the
shared slicing `paginate`, and the envelope satisfies: `totalItems` is the
collection size `N`; `totalPages` is `⌈N / L⌉`, computed as the natural
ceiling division `(N + L - 1) / L` (`0` when `N = 0`); the concatenation of
the data arrays over pages `1 .. totalPages` is exactly the whole collection,
so the data lengths over those pages sum to `N`; `hasNextPage` holds exactly
when `p * L < N`; and `hasPreviousPage` holds exactly when `(p - 1) * L > 0`. -/
theorem c1_pagination_contract {α : Type} (xs : List α)
    (products : List Product) (stock : List (String × ℚ))
    (pageQ limitQ : Option String) (p L : Int)
    (hpq : pageNum pageQ 1 = some p) (hlq : pageNum limitQ 10 = some L)
    (hp : 1 ≤ p) (hL : 1 ≤ L) :
    listProductsHandler pageQ limitQ products = paginate products p L ∧
    listAllStockHandler pageQ limitQ stock = paginate (stockItems stock) p L ∧
    ∃ pg : Pagination,
      paginate xs p L = ListResult.ok (jsSlice xs ((p - 1) * L) (p * L)) pg ∧
      pg.currentPage = p ∧
      pg.totalItems = xs.length ∧
      pg.totalPages = (((xs.length + L.toNat - 1) / L.toNat : Nat) : Int) ∧
      (xs.length = 0 → pg.totalPages = 0) ∧
      (pg.hasNextPage = true ↔ p * L < (xs.length : Int)) ∧
      (pg.hasPreviousPage = true ↔ 0 < (p - 1) * L) ∧
      ((List.range pg.totalPages.toNat).map
          (fun (k : ℕ) => (paginate xs ((k : Int) + 1) L).data)).flatten = xs ∧
      ((List.range pg.totalPages.toNat).map
          (fun (k : ℕ) => ((paginate xs ((k : Int) + 1) L).data).length)).sum = xs.length := by
  obtain ⟨l, rfl⟩ : ∃ l : Nat, L = (l : Int) :=
    ⟨L.toNat, (Int.toNat_of_nonneg (by omega)).symm⟩
  have hl : 0 < l := by exact_mod_cast hL
  refine ⟨by unfold listProductsHandler; rw [hpq, hlq],
          by unfold listAllStockHandler; rw [hpq, hlq], ?_⟩
  have hceil : ⌈(xs.length : ℚ) / (((l : Int)) : ℚ)⌉
      = (((xs.length + l - 1) / l : Nat) : Int) := by
    rw [show (((l : Int)) : ℚ) = ((l : ℕ) : ℚ) by push_cast; ring]
    exact ceil_natCast_div xs.length l hl
  have hdata : ∀ k : ℕ, (paginate xs ((k : Int) + 1) (l : Int)).data
      = (xs.take ((k + 1) * l)).drop (k * l) := by
    intro k
    rw [paginate_data xs ((k : Int) + 1) (l : Int) (by omega) hL,
      show (((k : Int) + 1) * (l : Int)).toNat = (k + 1) * l by
        rw [show ((k : Int) + 1) * (l : Int) = (((k + 1) * l : ℕ) : Int) by push_cast; ring,
          Int.toNat_natCast],
      show (((k : Int) + 1 - 1) * (l : Int)).toNat = k * l by
        rw [show ((k : Int) + 1 - 1) * (l : Int) = ((k * l : ℕ) : Int) by push_cast; ring,
          Int.toNat_natCast]]
  have hflat : ((List.range ((xs.length + l - 1) / l)).map
      (fun (k : ℕ) => (paginate xs ((k : Int) + 1) (l : Int)).data)).flatten = xs := by
    rw [List.map_congr_left (fun k _ => hdata k), flatten_pages,
      List.take_of_length_le (le_ceilDiv_mul xs.length l hl)]
  refine ⟨_, paginate_ok xs p (l : Int) hp hL, rfl, rfl, ?_, ?_, ?_, ?_, ?_, ?_⟩
  · simp only [Int.toNat_natCast]
    exact hceil
  · intro h0
    have h2 : ⌈(xs.length : ℚ) / (((l : Int)) : ℚ)⌉ = (0 : Int) := by
      rw [hceil, h0, show (0 + l - 1) / l = 0 from Nat.div_eq_of_lt (by omega)]
      rfl
    exact h2
  · exact iff_of_eq decide_eq_true_eq
  · exact iff_of_eq decide_eq_true_eq
  · have h2 : ((List.range ((⌈(xs.length : ℚ) / (((l : Int)) : ℚ)⌉).toNat)).map
        (fun (k : ℕ) => (paginate xs ((k : Int) + 1) (l : Int)).data)).flatten = xs := by
      rw [hceil, Int.toNat_natCast]
      exact hflat
    exact h2
  · have h2 : ((List.range ((⌈(xs.length : ℚ) / (((l : Int)) : ℚ)⌉).toNat)).map
        (fun (k : ℕ) => ((paginate xs ((k : Int) + 1) (l : Int)).data).length)).sum
        = xs.length := by
      rw [hceil, Int.toNat_natCast]
      have hlen := congrArg List.length hflat
      rw [List.length_flatten, List.map_map] at hlen
      exact hlen
    exact h2

/-- Witness for C1: the 5-element collection `[0, 1, 2, 3, 4]` with
`page = "2"`, `limit = "2"`. -/
theorem c1_pagination_contract_witness :
    pageNum (some "2") 1 = some 2 ∧ pageNum (some "2") 10 = some 2 ∧
    (1 : Int) ≤ 2 ∧
    (listProductsHandler (some "2") (some "2") [] = paginate [] 2 2 ∧
     listAllStockHandler (some "2") (some "2") [] = paginate (stockItems []) 2 2 ∧
     ∃ pg : Pagination,
       paginate [0, 1, 2, 3, 4] 2 2
          = ListResult.ok (jsSlice [0, 1, 2, 3, 4] ((2 - 1) * 2) (2 * 2)) pg ∧
       pg.currentPage = 2 ∧
       pg.totalItems = [0, 1, 2, 3, 4].length ∧
       pg.totalPages
          = ((([0, 1, 2, 3, 4].length + (2 : Int).toNat - 1) / (2 : Int).toNat : Nat) : Int) ∧
       ([0, 1, 2, 3, 4].length = 0 → pg.totalPages = 0) ∧
       (pg.hasNextPage = true ↔ (2 : Int) * 2 < ([0, 1, 2, 3, 4].length : Int)) ∧
       (pg.hasPreviousPage = true ↔ 0 < ((2 : Int) - 1) * 2) ∧
       ((List.range pg.totalPages.toNat).map
           (fun (k : ℕ) => (paginate [0, 1, 2, 3, 4] ((k : Int) + 1) 2).data)).flatten
          = [0, 1, 2, 3, 4] ∧
       ((List.range pg.totalPages.toNat).map
           (fun (k : ℕ) => ((paginate [0, 1, 2, 3, 4] ((k : Int) + 1) 2).data).length)).sum
          = [0, 1, 2, 3, 4].length) :=
  ⟨by decide, by decide, by decide,
   c1_pagination_contract [0, 1, 2, 3, 4] [] [] (some "2") (some "2") 2 2
     (by decide) (by decide) (by decide) (by decide)⟩

/-! ## C3 -/

/-- C3: For every accepted pagination pair whose start index
`(p - 1) * L` is at or beyond the collection size, the catalog list handler
responds 200 (not an error) with `data = []` while the envelope still
reports the true `totalItems` and `totalPages`, and `currentPage` echoes the
requested page. -/
theorem c3_out_of_range_page (products : List Product) (pageQ limitQ : Option String)
    (p L : Int)
    (hpq : pageNum pageQ 1 = some p) (hlq : pageNum limitQ 10 = some L)
    (hp : 1 ≤ p) (hL : 1 ≤ L) (hout : (products.length : Int) ≤ (p - 1) * L) :
    ∃ pg : Pagination,
      listProductsHandler pageQ limitQ products = ListResult.ok [] pg ∧
      (listProductsHandler pageQ limitQ products).status = 200 ∧
      pg.currentPage = p ∧
      pg.totalItems = products.length ∧
      pg.totalPages = (((products.length + L.toNat - 1) / L.toNat : Nat) : Int) := by
  have hred : listProductsHandler pageQ limitQ products = paginate products p L := by
    unfold listProductsHandler; rw [hpq, hlq]
  obtain ⟨l, rfl⟩ : ∃ l : Nat, L = (l : Int) :=
    ⟨L.toNat, (Int.toNat_of_nonneg (by omega)).symm⟩
  have hl : 0 < l := by exact_mod_cast hL
  have hok := paginate_ok products p (l : Int) hp hL
  have hslice : jsSlice products ((p - 1) * (l : Int)) (p * (l : Int)) = [] := by
    rw [jsSlice_nonneg products _ _
      (mul_nonneg (by omega) (by omega)) (mul_nonneg (by omega) (by omega))]
    obtain ⟨t, ht⟩ : ∃ t, t = (p - 1) * (l : Int) := ⟨_, rfl⟩
    rw [← ht] at hout ⊢
    refine List.drop_eq_nil_of_le ?_
    have h1 : (products.take ((p * (l : Int)).toNat)).length ≤ products.length := by
      rw [List.length_take]
      exact min_le_right _ _
    omega
  rw [hslice] at hok
  refine ⟨_, by rw [hred, hok], by rw [hred, hok]; rfl, rfl, rfl, ?_⟩
  have h2 : ⌈(products.length : ℚ) / (((l : Int)) : ℚ)⌉
      = (((products.length + (l : Int).toNat - 1) / (l : Int).toNat : ℕ) : Int) := by
    simp only [Int.toNat_natCast]
    rw [show ((((l : Int)) : ℚ)) = ((l : ℕ) : ℚ) by push_cast; ring]
    exact ceil_natCast_div products.length l hl
  exact h2

/-- A concrete catalog entry used by witnesses. -/
def sampleProduct : Product :=
  { id := "p-1"
    name := .str "Laptop"
    description := .str "High performance laptop"
    detailedDescription := .undef
    imageUrl := .str "http://img.example/laptop"
    price := .num 100
    stockQuantity := .num 5
    category := .str "Electronics"
    createdAt := 0
    updatedAt := 0 }

/-- Witness for C3: `page = "10"`, `limit = "2"` over a 5-item collection. -/
theorem c3_out_of_range_page_witness :
    pageNum (some "10") 1 = some 10 ∧ pageNum (some "2") 10 = some 2 ∧
    (1 : Int) ≤ 10 ∧ (1 : Int) ≤ 2 ∧
    (((List.replicate 5 sampleProduct).length : Int) ≤ (10 - 1) * 2) ∧
    (∃ pg : Pagination,
      listProductsHandler (some "10") (some "2") (List.replicate 5 sampleProduct)
        = ListResult.ok [] pg ∧
      (listProductsHandler (some "10") (some "2") (List.replicate 5 sampleProduct)).status
        = 200 ∧
      pg.currentPage = 10 ∧
      pg.totalItems = (List.replicate 5 sampleProduct).length ∧
      pg.totalPages
        = ((((List.replicate 5 sampleProduct).length + (2 : Int).toNat - 1)
            / (2 : Int).toNat : Nat) : Int)) :=
  ⟨by decide, by decide, by decide, by decide, by decide,
   c3_out_of_range_page (List.replicate 5 sampleProduct) (some "10") (some "2") 10 2
     (by decide) (by decide) (by decide) (by decide) (by decide)⟩

/-! ## C2 -/

/-- A query parameter that the list handlers reject: present and non-empty
(hence actually parsed), with `parseInt` yielding NaN or a value below 1. -/
def rejectedPaginationParam (q : Option String) : Prop :=
  ∃ s, q = some s ∧ s.isEmpty = false ∧
    (jsParseInt s = none ∨ ∃ n : Int, jsParseInt s = some n ∧ n < 1)

/-- A default of at least 1 relates `rejectedPaginationParam` to the parsed
value used by the handlers. -/
theorem rejected_iff_pageNum (q : Option String) (d : Int) (hd : 1 ≤ d) :
    rejectedPaginationParam q ↔
      (pageNum q d = none ∨ ∃ n : Int, pageNum q d = some n ∧ n < 1) := by
  cases q with
  | none =>
    constructor
    · rintro ⟨s, hs, -, -⟩
      cases hs
    · rintro (h | ⟨n, hn, hlt⟩)
      · simp [pageNum] at h
      · simp only [pageNum] at hn
        injection hn with hn
        omega
  | some s =>
    by_cases hs : s.isEmpty
    · constructor
      · rintro ⟨s', hs', hemp, -⟩
        injection hs' with hs'
        subst hs'
        rw [hs] at hemp
        cases hemp
      · rintro (h | ⟨n, hn, hlt⟩)
        · simp [pageNum, hs] at h
        · simp only [pageNum, hs, if_true] at hn
          injection hn with hn
          omega
    · have hps : pageNum (some s) d = jsParseInt s := by simp [pageNum, hs]
      rw [hps]
      constructor
      · rintro ⟨s', hs', -, h⟩
        injection hs' with hs'
        subst hs'
        exact h
      · intro h
        exact ⟨s, rfl, by simpa using hs, h⟩

/-- The common parse-then-paginate shape of the two list handlers returns the
400 message exactly when one of the parameters is rejected. -/
theorem match_paginate_badRequest_iff {α : Type} (xs : List α)
    (pageQ limitQ : Option String) :
    (match pageNum pageQ 1, pageNum limitQ 10 with
      | some page, some limit => paginate xs page limit
      | _, _ => ListResult.badRequest invalidPaginationMsg)
        = ListResult.badRequest invalidPaginationMsg ↔
      rejectedPaginationParam pageQ ∨ rejectedPaginationParam limitQ := by
  rw [rejected_iff_pageNum pageQ 1 (by omega), rejected_iff_pageNum limitQ 10 (by omega)]
  cases hp : pageNum pageQ 1 with
  | none =>
    cases hl : pageNum limitQ 10 with
    | none => exact ⟨fun _ => Or.inl (Or.inl rfl), fun _ => rfl⟩
    | some L => exact ⟨fun _ => Or.inl (Or.inl rfl), fun _ => rfl⟩
  | some p =>
    cases hl : pageNum limitQ 10 with
    | none => exact ⟨fun _ => Or.inr (Or.inl rfl), fun _ => rfl⟩
    | some L =>
      show paginate xs p L = _ ↔ _
      constructor
      · intro h
        by_cases hcond : p < 1 ∨ L < 1
        · rcases hcond with hc | hc
          · exact Or.inl (Or.inr ⟨p, rfl, hc⟩)
          · exact Or.inr (Or.inr ⟨L, rfl, hc⟩)
        · rw [paginate_ok xs p L (by omega) (by omega)] at h
          cases h
      · intro h
        have hcond : p < 1 ∨ L < 1 := by
          rcases h with (h | ⟨n, hn, hlt⟩) | (h | ⟨n, hn, hlt⟩)
          · cases h
          · injection hn with hn
            omega
          · cases h
          · injection hn with hn
            omega
        unfold paginate
        rw [if_pos hcond]

/-- C2 counterexample: The claim asserts a 400 response whenever a
parameter "after numeric parsing, is not-a-number". The empty string is a
present parameter whose numeric parse is NaN (`jsParseInt "" = none`), yet
the handler responds 200: the source's truthiness guard
(`req.query.page ? ... : 1`) treats the falsy `""` as absent and defaults it
to page 1. -/
theorem c2_counterexample :
    jsParseInt "" = none ∧
    (listProductsHandler (some "") none []).status = 200 ∧
    listProductsHandler (some "") none []
      ≠ ListResult.badRequest invalidPaginationMsg := by
  refine ⟨by decide, by decide, by decide⟩

/-- C2 amended: The list handlers respond 400 with exactly the literal
pagination message iff `page` or `limit` is present as a *non-empty* string
whose `parseInt` is NaN or a value below 1; absent — or empty, hence falsy —
parameters are defaulted (page 1, limit 10) rather than rejected. -/
theorem c2_pagination_validation (products : List Product) (st : List (String × ℚ))
    (pageQ limitQ : Option String) :
    (listProductsHandler pageQ limitQ products = ListResult.badRequest invalidPaginationMsg
      ↔ rejectedPaginationParam pageQ ∨ rejectedPaginationParam limitQ) ∧
    (listAllStockHandler pageQ limitQ st = ListResult.badRequest invalidPaginationMsg
      ↔ rejectedPaginationParam pageQ ∨ rejectedPaginationParam limitQ) ∧
    (∃ pg : Pagination,
      listProductsHandler none none products = ListResult.ok (jsSlice products 0 10) pg
        ∧ pg.currentPage = 1 ∧ pg.limit = 10) := by
  refine ⟨match_paginate_badRequest_iff products pageQ limitQ,
          match_paginate_badRequest_iff (stockItems st) pageQ limitQ, ?_⟩
  have hok := paginate_ok products 1 10 (by omega) (by omega)
  have h0 : ((1 : Int) - 1) * 10 = 0 := by norm_num
  have h10 : (1 : Int) * 10 = 10 := by norm_num
  rw [h0, h10] at hok
  exact ⟨_, hok, rfl, rfl⟩

/-! ## C4 -/

/-- A payload whose `price` is the falsy number `0`, every other field
present and truthy. -/
def zeroPriceBody : ProductBody :=
  { name := .str "Widget"
    description := .str "A widget"
    detailedDescription := .undef
    price := .num 0
    stockQuantity := .num 3
    category := .str "Tools"
    imageUrl := .str "http://img.example/widget" }

/-- C4 counterexample: The claim asserts the required-fields 400 for every
payload with a falsy mandatory field, "including price or stockQuantity being
falsy". But the source checks `price === undefined` (not truthiness) for the
two numeric fields, so the falsy `price: 0` passes presence and, being a
number, is accepted: the handler responds 201 and appends to the collection. -/
theorem c4_counterexample :
    JsVal.truthy zeroPriceBody.price = false ∧
    (createProductHandler zeroPriceBody [] 0 "id-1").1.status = 201 ∧
    (createProductHandler zeroPriceBody [] 0 "id-1").2.length = 1 := by
  refine ⟨by decide, by decide, by decide⟩

/-- C4 amended: The presence check tests truthiness for `name`,
`description`, `category` and `imageUrl` but only `=== undefined` for `price`
and `stockQuantity` (so a falsy `0` passes it); whenever it fails, create and
update respond 400 with their fixed required-fields message and leave the
collection unchanged — presence is checked before type, so this holds even
when `price` or `stockQuantity` is additionally non-numeric; when it passes
but `price` or `stockQuantity` is not of numeric type, both respond 400 with
exactly the type message and leave the collection unchanged. -/
theorem c4_validation (b : ProductBody) (products : List Product)
    (now : Nat) (newId : String) (pid : String) :
    (missingRequired b = true →
      createProductHandler b products now newId
        = (ProductResult.badRequest createRequiredMsg, products) ∧
      updateProductHandler pid b products now
        = (ProductResult.badRequest updateRequiredMsg, products)) ∧
    (missingRequired b = false → (b.price.isNumber && b.stockQuantity.isNumber) = false →
      createProductHandler b products now newId
        = (ProductResult.badRequest numberTypeMsg, products) ∧
      updateProductHandler pid b products now
        = (ProductResult.badRequest numberTypeMsg, products)) ∧
    (missingRequired b = true ↔
      (b.name.truthy = false ∨ b.description.truthy = false ∨ b.price = JsVal.undef ∨
       b.stockQuantity = JsVal.undef ∨ b.category.truthy = false ∨
       b.imageUrl.truthy = false)) := by
  refine ⟨?_, ?_, ?_⟩
  · intro hmiss
    constructor
    · unfold createProductHandler
      rw [if_pos hmiss]
    · unfold updateProductHandler
      rw [if_pos hmiss]
  · intro hmiss htype
    have hbad : (!b.price.isNumber || !b.stockQuantity.isNumber) = true := by
      rcases Bool.and_eq_false_iff.mp htype with h | h <;> simp [h]
    constructor
    · unfold createProductHandler
      rw [if_neg (by simp [hmiss]), if_pos hbad]
    · unfold updateProductHandler
      rw [if_neg (by simp [hmiss]), if_pos hbad]
  · unfold missingRequired
    constructor
    · intro h
      rcases Bool.or_eq_true_iff.mp h with h | h
      · rcases Bool.or_eq_true_iff.mp h with h | h
        · rcases Bool.or_eq_true_iff.mp h with h | h
          · rcases Bool.or_eq_true_iff.mp h with h | h
            · rcases Bool.or_eq_true_iff.mp h with h | h
              · exact Or.inl (by simpa using h)
              · exact Or.inr (Or.inl (by simpa using h))
            · exact Or.inr (Or.inr (Or.inl (by simpa using h)))
          · exact Or.inr (Or.inr (Or.inr (Or.inl (by simpa using h))))
        · exact Or.inr (Or.inr (Or.inr (Or.inr (Or.inl (by simpa using h)))))
      · exact Or.inr (Or.inr (Or.inr (Or.inr (Or.inr (by simpa using h)))))
    · intro h
      rcases h with h | h | h | h | h | h <;> simp [h]

/-- A payload with `name` absent (and `price` additionally non-numeric, to
exercise presence-before-type). -/
def missingNameBody : ProductBody :=
  { name := .undef
    description := .str "desc"
    detailedDescription := .undef
    price := .str "not-a-price"
    stockQuantity := .num 1
    category := .str "cat"
    imageUrl := .str "http://img" }

/-- A complete payload whose `price` is a string. -/
def stringPriceBody : ProductBody :=
  { name := .str "Widget"
    description := .str "desc"
    detailedDescription := .undef
    price := .str "not-a-price"
    stockQuantity := .num 1
    category := .str "cat"
    imageUrl := .str "http://img" }

/-- Witness for C4 (amended): a payload missing `name` gets the required-fields
message even though `price` is also non-numeric, and a complete payload with a
string `price` gets the type message; the collection is unchanged in both. -/
theorem c4_validation_witness :
    missingRequired missingNameBody = true ∧
    missingRequired stringPriceBody = false ∧
    (stringPriceBody.price.isNumber && stringPriceBody.stockQuantity.isNumber) = false ∧
    (createProductHandler missingNameBody [] 0 "id-4"
        = (ProductResult.badRequest createRequiredMsg, []) ∧
      updateProductHandler "x" missingNameBody [] 0
        = (ProductResult.badRequest updateRequiredMsg, [])) ∧
    (createProductHandler stringPriceBody [] 0 "id-4"
        = (ProductResult.badRequest numberTypeMsg, []) ∧
      updateProductHandler "x" stringPriceBody [] 0
        = (ProductResult.badRequest numberTypeMsg, [])) :=
  ⟨by decide, by decide, by decide,
   (c4_validation missingNameBody [] 0 "id-4" "x").1 (by decide),
   (c4_validation stringPriceBody [] 0 "id-4" "x").2.1 (by decide) (by decide)⟩

/-! ## C5 -/

/-- A payload that passes both validation steps of create/update. -/
def validPayload (b : ProductBody) : Prop :=
  missingRequired b = false ∧ b.price.isNumber = true ∧ b.stockQuantity.isNumber = true

/-- C5: For every valid update payload: on an identifier not present the
handler responds 404 with exactly the interpolated cannot-update message and
the collection is untouched; on the (first-match) identifier position it
replaces all mutable fields with the payload's, preserves the entity's
identifier and creation timestamp, sets the update timestamp to `now` (a
strict advance whenever the wall clock has moved past the stored timestamp),
responds 200 with the updated entity, and leaves every other element
unchanged. -/
theorem c5_update_semantics (pid : String) (b : ProductBody) (products : List Product)
    (now : Nat) (hb : validPayload b) :
    ((∀ p ∈ products, p.id ≠ pid) →
      updateProductHandler pid b products now
        = (ProductResult.notFound (notFoundUpdateMsg pid), products)) ∧
    (∀ i old, products.findIdx? (fun p => p.id == pid) = some i →
      products[i]? = some old → old.updatedAt < now →
      ∃ upd : Product,
        updateProductHandler pid b products now
          = (ProductResult.ok upd, products.set i upd) ∧
        (ProductResult.ok upd).status = 200 ∧
        upd.id = old.id ∧ old.id = pid ∧
        upd.createdAt = old.createdAt ∧
        upd.updatedAt = now ∧ old.updatedAt < upd.updatedAt ∧
        upd.name = b.name ∧ upd.description = b.description ∧
        upd.detailedDescription = b.detailedDescription ∧
        upd.imageUrl = b.imageUrl ∧ upd.price = b.price ∧
        upd.stockQuantity = b.stockQuantity ∧ upd.category = b.category ∧
        (products.set i upd).length = products.length ∧
        (∀ j, j ≠ i → (products.set i upd)[j]? = products[j]?)) := by
  obtain ⟨hmiss, hprice, hstock⟩ := hb
  constructor
  · intro hall
    have hnone : products.findIdx? (fun p => p.id == pid) = none := by
      rw [List.findIdx?_eq_none_iff]
      intro x hx
      simpa using hall x hx
    unfold updateProductHandler
    rw [if_neg (by simp [hmiss]), if_neg (by simp [hprice, hstock]), hnone]
  · intro i old hfind hget hlt
    have hidx := List.findIdx?_eq_some_iff_findIdx_eq.mp hfind
    have hold : old = products.get ⟨i, hidx.1⟩ := by
      have h0 := List.getElem?_eq_getElem hidx.1
      rw [hget] at h0
      exact Option.some_inj.mp h0
    have hidpid : old.id = pid := by
      have hlen : List.findIdx (fun p => p.id == pid) products < products.length := by
        rw [hidx.2]
        exact hidx.1
      have hpe := @List.findIdx_getElem _ (fun p => p.id == pid) products hlen
      simp only [hidx.2] at hpe
      rw [hold]
      exact beq_iff_eq.mp hpe
    unfold updateProductHandler
    rw [if_neg (by simp [hmiss]), if_neg (by simp [hprice, hstock])]
    simp only [hfind, hget]
    exact ⟨_, rfl, rfl, rfl, hidpid, rfl, rfl, hlt, rfl, rfl, rfl, rfl, rfl, rfl, rfl,
      List.length_set _ _ _, fun j hj => List.getElem?_set_ne (Ne.symm hj)⟩

/-- A complete, valid update payload. -/
def validUpdateBody : ProductBody :=
  { name := .str "Laptop v2"
    description := .str "Updated description"
    detailedDescription := .str "Longer description"
    price := .num 120
    stockQuantity := .num 7
    category := .str "Electronics"
    imageUrl := .str "http://img.example/laptop-v2" }

/-- Witness for C5: updating the one-element collection `[sampleProduct]`
(stored update timestamp 0) at time 5, plus a miss on id `"zzz"`. -/
theorem c5_update_semantics_witness :
    validPayload validUpdateBody ∧
    ([sampleProduct].findIdx? (fun p => p.id == "p-1") = some 0) ∧
    ([sampleProduct][0]? = some sampleProduct) ∧
    sampleProduct.updatedAt < 5 ∧
    (∀ p ∈ [sampleProduct], p.id ≠ "zzz") ∧
    (updateProductHandler "zzz" validUpdateBody [sampleProduct] 5
      = (ProductResult.notFound (notFoundUpdateMsg "zzz"), [sampleProduct])) ∧
    (∃ upd : Product,
      updateProductHandler "p-1" validUpdateBody [sampleProduct] 5
        = (ProductResult.ok upd, [sampleProduct].set 0 upd) ∧
      (ProductResult.ok upd).status = 200 ∧
      upd.id = sampleProduct.id ∧ sampleProduct.id = "p-1" ∧
      upd.createdAt = sampleProduct.createdAt ∧
      upd.updatedAt = 5 ∧ sampleProduct.updatedAt < upd.updatedAt ∧
      upd.name = validUpdateBody.name ∧ upd.description = validUpdateBody.description ∧
      upd.detailedDescription = validUpdateBody.detailedDescription ∧
      upd.imageUrl = validUpdateBody.imageUrl ∧ upd.price = validUpdateBody.price ∧
      upd.stockQuantity = validUpdateBody.stockQuantity ∧
      upd.category = validUpdateBody.category ∧
      ([sampleProduct].set 0 upd).length = [sampleProduct].length ∧
      (∀ j, j ≠ 0 → ([sampleProduct].set 0 upd)[j]? = [sampleProduct][j]?)) :=
  ⟨⟨by decide, by decide, by decide⟩, by decide, by decide, by decide, by decide,
   (c5_update_semantics "zzz" validUpdateBody [sampleProduct] 5
     ⟨by decide, by decide, by decide⟩).1 (by decide),
   (c5_update_semantics "p-1" validUpdateBody [sampleProduct] 5
     ⟨by decide, by decide, by decide⟩).2 0 sampleProduct (by decide) (by decide) (by decide)⟩

/-! ## C6 -/

/-- C6: On a present identifier the delete handler removes exactly the
first-matching element (size drops by one, every other position unchanged)
and responds 204 with no body; if no other element carries that identifier, a
subsequent get-by-id answers 404 with the interpolated not-found message. On
an absent identifier it responds 404 with the cannot-delete message and the
collection is untouched. -/
theorem c6_delete_semantics (pid : String) (products : List Product) :
    ((∀ p ∈ products, p.id ≠ pid) →
      deleteProductHandler pid products
        = (ProductResult.notFound (notFoundDeleteMsg pid), products)) ∧
    (∀ i, products.findIdx? (fun p => p.id == pid) = some i →
      deleteProductHandler pid products = (ProductResult.noContent, products.eraseIdx i) ∧
      ProductResult.noContent.status = 204 ∧
      (products.eraseIdx i).length + 1 = products.length ∧
      (∀ j, j < i → (products.eraseIdx i)[j]? = products[j]?) ∧
      (∀ j, i ≤ j → (products.eraseIdx i)[j]? = products[j + 1]?) ∧
      ((∀ j, j ≠ i → ∀ p, products[j]? = some p → p.id ≠ pid) →
        getProductByIdHandler pid (products.eraseIdx i)
          = ProductResult.notFound (notFoundGetMsg pid))) := by
  constructor
  · intro hall
    have hnone : products.findIdx? (fun p => p.id == pid) = none := by
      rw [List.findIdx?_eq_none_iff]
      intro x hx
      simpa using hall x hx
    unfold deleteProductHandler
    rw [hnone]
  · intro i hfind
    have hidx := List.findIdx?_eq_some_iff_findIdx_eq.mp hfind
    refine ⟨?_, rfl, ?_, ?_, ?_, ?_⟩
    · unfold deleteProductHandler
      rw [hfind]
    · rw [List.length_eraseIdx, if_pos hidx.1]
      omega
    · intro j hj
      rw [List.getElem?_eraseIdx, if_pos hj]
    · intro j hj
      rw [List.getElem?_eraseIdx, if_neg (by omega)]
    · intro huniq
      have hfindnone : (products.eraseIdx i).find? (fun p => p.id == pid) = none := by
        rw [List.find?_eq_none]
        intro x hx
        rw [List.mem_iff_getElem?] at hx
        obtain ⟨j, hj⟩ := hx
        rw [List.getElem?_eraseIdx] at hj
        by_cases hji : j < i
        · rw [if_pos hji] at hj
          have hne := huniq j (by omega) x hj
          simpa using hne
        · rw [if_neg hji] at hj
          have hne := huniq (j + 1) (by omega) x hj
          simpa using hne
      unfold getProductByIdHandler
      rw [hfindnone]

/-- A second concrete catalog entry (distinct identifier) for witnesses. -/
def sampleProduct2 : Product :=
  { id := "p-2"
    name := .str "Mouse"
    description := .str "Wireless mouse"
    detailedDescription := .undef
    imageUrl := .str "http://img.example/mouse"
    price := .num 20
    stockQuantity := .num 9
    category := .str "Accessories"
    createdAt := 0
    updatedAt := 0 }

/-- Witness for C6: deleting `"p-1"` from a two-element collection, and a
miss on `"nope"`. -/
theorem c6_delete_semantics_witness :
    ([sampleProduct, sampleProduct2].findIdx? (fun p => p.id == "p-1") = some 0) ∧
    (∀ p ∈ [sampleProduct, sampleProduct2], p.id ≠ "nope") ∧
    (deleteProductHandler "nope" [sampleProduct, sampleProduct2]
      = (ProductResult.notFound (notFoundDeleteMsg "nope"),
         [sampleProduct, sampleProduct2])) ∧
    (deleteProductHandler "p-1" [sampleProduct, sampleProduct2]
      = (ProductResult.noContent, [sampleProduct, sampleProduct2].eraseIdx 0)) ∧
    ([sampleProduct, sampleProduct2].eraseIdx 0).length + 1
      = [sampleProduct, sampleProduct2].length ∧
    getProductByIdHandler "p-1" ([sampleProduct, sampleProduct2].eraseIdx 0)
      = ProductResult.notFound (notFoundGetMsg "p-1") := by
  have h2 := (c6_delete_semantics "p-1" [sampleProduct, sampleProduct2]).2 0 (by decide)
  refine ⟨by decide, by decide,
    (c6_delete_semantics "nope" [sampleProduct, sampleProduct2]).1 (by decide),
    h2.1, h2.2.2.1, h2.2.2.2.2.2 ?_⟩
  intro j hj p hp
  match j with
  | 0 => exact absurd rfl hj
  | 1 =>
    have hp2 : p = sampleProduct2 := by
      have := hp
      simp only [List.getElem?_cons_succ, List.getElem?_cons_zero] at this
      exact (Option.some_inj.mp this).symm
    subst hp2
    decide
  | n + 2 => simp at hp

/-! ## C7 -/

/-- Writing a key then reading it back yields the written value. -/
theorem lookup_objSet (st : List (String × ℚ)) (k : String) (v : ℚ) :
    (objSet st k v).lookup k = some v := by
  induction st with
  | nil => simp [objSet, List.lookup]
  | cons hd tl ih =>
    obtain ⟨k', v'⟩ := hd
    by_cases h : k' = k
    · subst h
      simp [objSet, List.lookup_cons]
    · have hb : (k' == k) = false := beq_eq_false_iff_ne.mpr h
      have hb2 : (k == k') = false := beq_eq_false_iff_ne.mpr (Ne.symm h)
      simp [objSet, hb, hb2, List.lookup_cons, ih]

/-- C7: For every productId (present in the store or not) and every
non-negative integer quantity, the stock update handler responds 200 with
`{productId, quantity}` and upserts the key; a subsequent get on that
productId returns the same pair. -/
theorem c7_stock_upsert (pid : String) (st : List (String × ℚ)) (n : Nat) :
    updateStockHandler pid (JsVal.num n) st
      = (StockResult.ok pid (n : ℚ), objSet st pid (n : ℚ)) ∧
    (updateStockHandler pid (JsVal.num n) st).1.status = 200 ∧
    getStockByProductIdHandler pid (objSet st pid (n : ℚ))
      = StockResult.ok pid (n : ℚ) := by
  have h1 : ((0 : ℚ) ≤ (n : ℚ)) := Nat.cast_nonneg n
  have hz : ((n : ℚ) < 0) = False := eq_false (not_lt.mpr h1)
  have hval : updateStockHandler pid (JsVal.num n) st
      = (StockResult.ok pid (n : ℚ), objSet st pid (n : ℚ)) := by
    unfold updateStockHandler
    rw [if_neg (by simp),
      if_neg (by simp [JsVal.isNumber, JsVal.ltZero, JsVal.isIntegerJs, Rat.den_natCast, hz])]
  refine ⟨hval, ?_, ?_⟩
  · rw [hval]
    rfl
  · unfold getStockByProductIdHandler
    rw [lookup_objSet]

/-! ## C8 -/

/-- Invariant: every stored quantity is a non-negative integer
(a rational with denominator 1). -/
def stockInv (st : List (String × ℚ)) : Prop :=
  ∀ e ∈ st, 0 ≤ e.2 ∧ e.2.den = 1

/-- Upserting a non-negative integer preserves the stock invariant. -/
theorem stockInv_objSet (st : List (String × ℚ)) (k : String) (v : ℚ)
    (hv0 : 0 ≤ v) (hv1 : v.den = 1) :
    stockInv st → stockInv (objSet st k v) := by
  induction st with
  | nil =>
    intro _ e he
    simp only [objSet, List.mem_singleton] at he
    subst he
    exact ⟨hv0, hv1⟩
  | cons hd tl ih =>
    intro hst e he
    obtain ⟨k', v'⟩ := hd
    have htl : stockInv tl := fun x hx => hst x (List.mem_cons_of_mem _ hx)
    by_cases h : k' = k
    · subst h
      simp only [objSet, beq_self_eq_true, if_true] at he
      rcases List.mem_cons.mp he with h1 | h1
      · subst h1
        exact ⟨hv0, hv1⟩
      · exact hst e (List.mem_cons_of_mem _ h1)
    · have hb : (k' == k) = false := beq_eq_false_iff_ne.mpr h
      simp only [objSet, hb, Bool.false_eq_true, if_false] at he
      rcases List.mem_cons.mp he with h1 | h1
      · subst h1
        exact hst _ (List.mem_cons_self _ _)
      · exact ih htl e h1

/-- C8: Every quantity in the seeded store is a non-negative integer; the
update handler rejects an absent quantity with exactly the missing-quantity
message and a non-numeric, negative, or fractional one with exactly the
non-negative-integer message, writing nothing in either case; and every
update preserves the invariant. -/
theorem c8_stock_invariant (pid : String) (q : JsVal) (st : List (String × ℚ))
    (hst : stockInv st) :
    stockInv initialStockLevels ∧
    (q = JsVal.undef →
      updateStockHandler pid q st = (StockResult.badRequest missingQuantityMsg, st)) ∧
    (q ≠ JsVal.undef →
      (q.isNumber = false ∨ q.ltZero = true ∨ q.isIntegerJs = false) →
      updateStockHandler pid q st = (StockResult.badRequest quantityNotNonNegIntMsg, st)) ∧
    stockInv (updateStockHandler pid q st).2 := by
  refine ⟨?_, ?_, ?_, ?_⟩
  · intro e he
    simp only [initialStockLevels, List.mem_cons, List.not_mem_nil, or_false] at he
    rcases he with h | h
    · subst h
      refine ⟨by norm_num, by norm_num⟩
    · subst h
      refine ⟨by norm_num, by norm_num⟩
  · intro hq
    subst hq
    unfold updateStockHandler
    rw [if_pos (by simp)]
  · intro hq hbad
    have hb : (!q.isNumber || q.ltZero || !q.isIntegerJs) = true := by
      rcases hbad with h | h | h <;> simp [h]
    unfold updateStockHandler
    rw [if_neg (by simp [hq]), if_pos hb]
  · by_cases hq : q = JsVal.undef
    · subst hq
      unfold updateStockHandler
      rw [if_pos (by simp)]
      exact hst
    · by_cases hbad : (!q.isNumber || q.ltZero || !q.isIntegerJs) = true
      · unfold updateStockHandler
        rw [if_neg (by simp [hq]), if_pos hbad]
        exact hst
      · have hb2 : (!q.isNumber || q.ltZero || !q.isIntegerJs) = false := by
          simpa using hbad
        obtain ⟨hb3, hint⟩ := Bool.or_eq_false_iff.mp hb2
        obtain ⟨hnum, hltz⟩ := Bool.or_eq_false_iff.mp hb3
        cases q with
        | num x =>
          have h0 : 0 ≤ x := by
            simp only [JsVal.ltZero, decide_eq_false_iff_not, not_lt] at hltz
            exact hltz
          have hden : x.den = 1 := by
            simp [JsVal.isIntegerJs] at hint
            exact hint
          unfold updateStockHandler
          rw [if_neg (by simp), if_neg (by simp [hb2])]
          exact stockInv_objSet st pid x h0 hden hst
        | undef => exact absurd rfl hq
        | nan => simp [JsVal.isIntegerJs] at hint
        | null => simp [JsVal.isNumber] at hnum
        | str s => simp [JsVal.isNumber] at hnum
        | bool b => simp [JsVal.isNumber] at hnum

/-- Witness for C8: `PUT /stock/abc` with `quantity: -5` on the empty store is
rejected with the exact message and writes nothing. -/
theorem c8_stock_invariant_witness :
    stockInv ([] : List (String × ℚ)) ∧
    (JsVal.num (-5) ≠ JsVal.undef) ∧
    ((JsVal.num (-5)).ltZero = true) ∧
    updateStockHandler "abc" (JsVal.num (-5)) []
      = (StockResult.badRequest quantityNotNonNegIntMsg, []) ∧
    stockInv (updateStockHandler "abc" (JsVal.num (-5)) []).2 := by
  have h := c8_stock_invariant "abc" (JsVal.num (-5)) []
    (by intro e he; cases he)
  refine ⟨?_, by decide, by decide, ?_, ?_⟩
  · intro e he
    cases he
  · exact h.2.2.1 (by decide) (Or.inr (Or.inl (by decide)))
  · exact h.2.2.2

/-! ## C9 -/

/-- A complete payload with the negative numeric price `-5`. -/
def negPriceBody : ProductBody :=
  { name := .str "Widget"
    description := .str "A widget"
    detailedDescription := .undef
    price := .num (-5)
    stockQuantity := .num 3
    category := .str "Tools"
    imageUrl := .str "http://img.example/widget" }

/-- C9 counterexample: The handlers never check the sign of `price` — only
`=== undefined` and `typeof ... === "number"` — so a payload with
`price: -5` is accepted with 201 and the stored product carries the negative
price, contradicting the claimed non-negativity invariant. -/
theorem c9_counterexample :
    (createProductHandler negPriceBody [] 0 "id-9").1.status = 201 ∧
    ((createProductHandler negPriceBody [] 0 "id-9").2.map Product.price)
      = [JsVal.num (-5)] ∧
    ((-5 : ℚ) < 0) := by
  refine ⟨by decide, by decide, by norm_num⟩

/-- C9 amended: What the handlers do guarantee about accepted payloads:
whenever create responds 201 (or update responds 200), `price` and
`stockQuantity` are of JS number type, and every product in the resulting
collection either was already there or carries exactly the payload's `price`
— numeric type is enforced, non-negativity is not. -/
theorem c9_accepted_payloads_numeric (b : ProductBody) (products : List Product)
    (now : Nat) (newId : String) (pid : String) :
    ((createProductHandler b products now newId).1.status = 201 →
      b.price.isNumber = true ∧ b.stockQuantity.isNumber = true ∧
      ∀ p ∈ (createProductHandler b products now newId).2,
        p ∈ products ∨ p.price = b.price) ∧
    ((updateProductHandler pid b products now).1.status = 200 →
      b.price.isNumber = true ∧ b.stockQuantity.isNumber = true ∧
      ∀ p ∈ (updateProductHandler pid b products now).2,
        p ∈ products ∨ p.price = b.price) := by
  constructor
  · intro hstatus
    by_cases hmiss : missingRequired b = true
    · exfalso
      have heq : createProductHandler b products now newId
          = (ProductResult.badRequest createRequiredMsg, products) := by
        unfold createProductHandler
        rw [if_pos hmiss]
      rw [heq] at hstatus
      simp [ProductResult.status] at hstatus
    · have hmiss' : missingRequired b = false := by simpa using hmiss
      by_cases htype : (!b.price.isNumber || !b.stockQuantity.isNumber) = true
      · exfalso
        have heq : createProductHandler b products now newId
            = (ProductResult.badRequest numberTypeMsg, products) := by
          unfold createProductHandler
          rw [if_neg (by simp [hmiss']), if_pos htype]
        rw [heq] at hstatus
        simp [ProductResult.status] at hstatus
      · have htype' : (!b.price.isNumber || !b.stockQuantity.isNumber) = false := by
          simpa using htype
        obtain ⟨hp, hs⟩ := Bool.or_eq_false_iff.mp htype'
        refine ⟨by simpa using hp, by simpa using hs, ?_⟩
        intro p hp2
        have heq2 : (createProductHandler b products now newId).2
            = products ++ [Product.mk newId b.name b.description b.detailedDescription
                b.imageUrl b.price b.stockQuantity b.category now now] := by
          unfold createProductHandler
          rw [if_neg (by simp [hmiss']), if_neg (by simp [htype'])]
        rw [heq2] at hp2
        rcases List.mem_append.mp hp2 with h | h
        · exact Or.inl h
        · refine Or.inr ?_
          rw [List.mem_singleton.mp h]
  · intro hstatus
    by_cases hmiss : missingRequired b = true
    · exfalso
      have heq : updateProductHandler pid b products now
          = (ProductResult.badRequest updateRequiredMsg, products) := by
        unfold updateProductHandler
        rw [if_pos hmiss]
      rw [heq] at hstatus
      simp [ProductResult.status] at hstatus
    · have hmiss' : missingRequired b = false := by simpa using hmiss
      by_cases htype : (!b.price.isNumber || !b.stockQuantity.isNumber) = true
      · exfalso
        have heq : updateProductHandler pid b products now
            = (ProductResult.badRequest numberTypeMsg, products) := by
          unfold updateProductHandler
          rw [if_neg (by simp [hmiss']), if_pos htype]
        rw [heq] at hstatus
        simp [ProductResult.status] at hstatus
      · have htype' : (!b.price.isNumber || !b.stockQuantity.isNumber) = false := by
          simpa using htype
        obtain ⟨hp, hs⟩ := Bool.or_eq_false_iff.mp htype'
        refine ⟨by simpa using hp, by simpa using hs, ?_⟩
        intro p hp2
        cases hfind : products.findIdx? (fun q => q.id == pid) with
        | none =>
          have heq : (updateProductHandler pid b products now).2 = products := by
            unfold updateProductHandler
            rw [if_neg (by simp [hmiss']), if_neg (by simp [htype']), hfind]
          rw [heq] at hp2
          exact Or.inl hp2
        | some i =>
          cases hget : products[i]? with
          | none =>
            have heq : (updateProductHandler pid b products now).2 = products := by
              unfold updateProductHandler
              rw [if_neg (by simp [hmiss']), if_neg (by simp [htype'])]
              simp only [hfind, hget]
            rw [heq] at hp2
            exact Or.inl hp2
          | some old =>
            have heq : (updateProductHandler pid b products now).2
                = products.set i (Product.mk old.id b.name b.description
                    b.detailedDescription b.imageUrl b.price b.stockQuantity b.category
                    old.createdAt now) := by
              unfold updateProductHandler
              rw [if_neg (by simp [hmiss']), if_neg (by simp [htype'])]
              simp only [hfind, hget]
            rw [heq] at hp2
            rcases List.mem_or_eq_of_mem_set hp2 with h | h
            · exact Or.inl h
            · refine Or.inr ?_
              rw [h]

/-- Witness for C9 (amended): a valid creation is accepted with 201 and the
guarantee holds for it. -/
theorem c9_accepted_payloads_numeric_witness :
    (createProductHandler validUpdateBody [] 0 "id-9w").1.status = 201 ∧
    (validUpdateBody.price.isNumber = true ∧
     validUpdateBody.stockQuantity.isNumber = true ∧
     ∀ p ∈ (createProductHandler validUpdateBody [] 0 "id-9w").2,
       p ∈ ([] : List Product) ∨ p.price = validUpdateBody.price) :=
  ⟨by decide,
   (c9_accepted_payloads_numeric validUpdateBody [] 0 "id-9w" "x").1 (by decide)⟩

/-! ## C10 -/

/-- C10: Whenever the update handler responds 400 or 404 the collection is
completely unchanged: validation runs before the lookup and no write precedes
either failure response. -/
theorem c10_update_failure_frame (pid : String) (b : ProductBody)
    (products : List Product) (now : Nat)
    (h : (updateProductHandler pid b products now).1.status = 400 ∨
         (updateProductHandler pid b products now).1.status = 404) :
    (updateProductHandler pid b products now).2 = products := by
  by_cases hmiss : missingRequired b = true
  · unfold updateProductHandler
    rw [if_pos hmiss]
  · have hmiss' : missingRequired b = false := by simpa using hmiss
    by_cases htype : (!b.price.isNumber || !b.stockQuantity.isNumber) = true
    · unfold updateProductHandler
      rw [if_neg (by simp [hmiss']), if_pos htype]
    · have htype' : (!b.price.isNumber || !b.stockQuantity.isNumber) = false := by
        simpa using htype
      cases hfind : products.findIdx? (fun q => q.id == pid) with
      | none =>
        unfold updateProductHandler
        rw [if_neg (by simp [hmiss']), if_neg (by simp [htype']), hfind]
      | some i =>
        cases hget : products[i]? with
        | none =>
          unfold updateProductHandler
          rw [if_neg (by simp [hmiss']), if_neg (by simp [htype'])]
          simp only [hfind, hget]
        | some old =>
          exfalso
          have heq1 : (updateProductHandler pid b products now).1.status = 200 := by
            unfold updateProductHandler
            rw [if_neg (by simp [hmiss']), if_neg (by simp [htype'])]
            simp only [hfind, hget]
            rfl
          rcases h with h | h <;> omega

/-- Witness for C10: an invalid payload (missing `name`) leaves the (empty)
collection unchanged on its 400 response. -/
theorem c10_update_failure_frame_witness :
    ((updateProductHandler "x" missingNameBody [] 0).1.status = 400 ∨
     (updateProductHandler "x" missingNameBody [] 0).1.status = 404) ∧
    (updateProductHandler "x" missingNameBody [] 0).2 = [] :=
  ⟨Or.inl (by decide),
   c10_update_failure_frame "x" missingNameBody [] 0 (Or.inl (by decide))⟩
